import Mathlib

/-!
Verification of the zed debug-adapter material: the declarative task/config
schema of crates/task/src/debug_format.rs, and the DAP session/wire layer of
the dap crate (modelled from the specification where the crate's modules are
not among the sources).
-/

namespace ZedDap

/-! ## Data model of crates/task/src/debug_format.rs -/

/-- Octets of an IPv4 address (std::net::Ipv4Addr). -/
structure Ipv4Addr where
  a : Nat
  b : Nat
  c : Nat
  d : Nat
deriving DecidableEq

/-- Host information of the debug adapter (struct TCPHost, debug_format.rs).
Machine integers u16/u64 are modelled as Nat. -/
structure TCPHost where
  port : Option Nat
  host : Option Ipv4Addr
  delay : Option Nat
deriving DecidableEq

/-- Derived Default for TCPHost: every Option field defaults to None. -/
def TCPHost.default : TCPHost := ⟨none, none, none⟩

/-- Which request to call on the debug adapter (enum DebugRequestType). -/
inductive DebugRequestType where
  | Launch
  | Attach
deriving DecidableEq

/-- Derived Default for DebugRequestType: the variant marked with the
default attribute is Launch. -/
def DebugRequestType.default : DebugRequestType := .Launch

/-- Type of the debugger adapter connection (enum DebugConnectionType). -/
inductive DebugConnectionType where
  | TCP (host : TCPHost)
  | Stdio
deriving DecidableEq

/-- Manual Default impl for DebugConnectionType (debug_format.rs lines 8-12):
TCP with the default TCPHost. -/
def DebugConnectionType.default : DebugConnectionType := .TCP TCPHost.default

/-- Custom arguments used to set up a custom debugger (struct CustomArgs). -/
structure CustomArgs where
  connection : DebugConnectionType
  start_command : String
deriving DecidableEq

/-- The debug adapter to use (enum DebugAdapterKind). -/
inductive DebugAdapterKind where
  | Custom (args : CustomArgs)
  | Python
  | PHP
  | Lldb
deriving DecidableEq

/-- Manual Default impl for DebugAdapterKind (debug_format.rs lines 60-67):
Custom with an STDIO connection and an empty start command. -/
def DebugAdapterKind.default : DebugAdapterKind := .Custom ⟨.Stdio, ""⟩

/-- Configuration for the debug adapter (struct DebugAdapterConfig). -/
structure DebugAdapterConfig where
  kind : DebugAdapterKind
  request : DebugRequestType
  program : String
  adapter_path : Option String
  initialize_args : Option (List String)
deriving DecidableEq

/-- One debug task definition (struct DebugTaskDefinition). -/
structure DebugTaskDefinition where
  label : String
  program : String
  session_type : DebugRequestType
  adapter : DebugAdapterKind
  initialize_args : Option (List String)
deriving DecidableEq

/-- Modelled from the spec: TaskType of the task crate is not among the
sources; only its Debug variant, carrying a DebugAdapterConfig, appears in
debug_format.rs. -/
inductive TaskType where
  | Debug (config : DebugAdapterConfig)
deriving DecidableEq

/-- Modelled from the spec: TaskTemplate of the task crate is not among the
sources; we record exactly the fields set by to_zed_format (label, command,
args, task_type); the remaining fields are filled from Default by the
source's struct-update and are omitted here. -/
structure TaskTemplate where
  label : String
  command : String
  args : List String
  task_type : TaskType
deriving DecidableEq

/-- DebugTaskDefinition::to_zed_format (debug_format.rs lines 116-137).
anyhow::Result is modelled as Except String; the function body constructs
the template unconditionally and returns Ok. -/
def DebugTaskDefinition.to_zed_format (self : DebugTaskDefinition) :
    Except String TaskTemplate :=
  let command : String := ""
  let task_type : TaskType :=
    .Debug ⟨self.adapter, self.session_type, self.program, none, self.initialize_args⟩
  let args : List String := []
  Except.ok ⟨self.label, command, args, task_type⟩

/-- A group of debug tasks defined in a JSON file (tuple struct
DebugTaskFile(pub Vec of DebugTaskDefinition)). -/
structure DebugTaskFile where
  defs : List DebugTaskDefinition
deriving DecidableEq

/-- Modelled from the spec: TaskTemplates of the task crate is not among the
sources; it wraps the list of templates produced for a task file. -/
structure TaskTemplates where
  templates : List TaskTemplate
deriving DecidableEq

/-- util::ResultExt::log_err: logs the error (a side effect outside the
model) and turns the Result into an Option keeping only the Ok value. -/
def log_err (r : Except String TaskTemplate) : Option TaskTemplate :=
  r.toOption

/-- TryFrom DebugTaskFile for TaskTemplates (debug_format.rs lines 155-167):
each definition is converted with to_zed_format, per-definition failures are
dropped by filter_map over log_err, and the batch itself always yields Ok. -/
def TaskTemplates.tryFrom (value : DebugTaskFile) : Except String TaskTemplates :=
  Except.ok ⟨value.defs.filterMap (fun d => log_err d.to_zed_format)⟩

/-- Modelled from the spec: the parsed form of one task definition as read
from JSON, in which the session_type field may be absent (it carries a
serde default attribute in the source). -/
structure RawDebugTaskDefinition where
  label : String
  program : String
  session_type : Option DebugRequestType
  adapter : DebugAdapterKind
  initialize_args : Option (List String)
deriving DecidableEq

/-- Serde deserialization of DebugTaskDefinition: an absent session_type
field takes DebugRequestType::default(); every other field is required. -/
def deserializeDefinition (r : RawDebugTaskDefinition) : DebugTaskDefinition :=
  ⟨r.label, r.program, r.session_type.getD DebugRequestType.default,
    r.adapter, r.initialize_args⟩

/-! ## Session / client state machine

The dap crate's client module is not among the sources (only its module
declaration in crates/dap/src/lib.rs is), so the session engine below is
modelled from the specification's description of sequence assignment, the
pending-request table, the lifecycle state machine and teardown. -/

/-- Modelled from the spec: the request commands named by the lifecycle
legality table (the initialization command, launch, attach, and the stepping and continue
commands legal while stopped). -/
inductive DapCommand where
  | initializeCmd
  | launch
  | attach
  | next
  | stepIn
  | stepOut
  | continueExec
deriving DecidableEq

/-- Modelled from the spec: the lifecycle states Uninitialized, Initializing,
Initialized, Starting(Launch|Attach), Running, Stopped, Terminated. -/
inductive LifecycleState where
  | Uninitialized
  | Initializing
  | Initialized
  | Starting (kind : DebugRequestType)
  | Running
  | Stopped
  | Terminated
deriving DecidableEq

/-- Modelled from the spec: which commands are legal in which lifecycle
state: Initialize only in Uninitialized, Launch and Attach only in
Initialized, stepping and continue only in Stopped; Terminated is absorbing
so nothing is legal there. -/
def legal (cmd : DapCommand) (st : LifecycleState) : Bool :=
  match cmd, st with
  | .initializeCmd, .Uninitialized => true
  | .launch, .Initialized => true
  | .attach, .Initialized => true
  | .next, .Stopped => true
  | .stepIn, .Stopped => true
  | .stepOut, .Stopped => true
  | .continueExec, .Stopped => true
  | _, _ => false

/-- Modelled from the spec: the errors a request issue path can surface
synchronously (IllegalState names the attempted command and the current
state; Disconnected is the termination-class error). -/
inductive DapError where
  | IllegalState (attempted : DapCommand) (current : LifecycleState)
  | Disconnected
deriving DecidableEq

/-- Modelled from the spec: the session-owned mutable state: the session
local sequence counter, the pending-request table (as the list of in-flight
sequence numbers), the lifecycle state, the log of requests actually handed
to Transport (the wire traffic), and the log of every sequence number ever
stamped on an outgoing request. -/
structure Session where
  next_seq : Nat
  pending : List Nat
  state : LifecycleState
  sent : List (Nat × DapCommand)
  stamped : List Nat
deriving DecidableEq

/-- A fresh session: counter at 1, nothing pending, Uninitialized. -/
def Session.init : Session := ⟨1, [], .Uninitialized, [], []⟩

/-- Modelled from the spec: the lifecycle transition taken when a legal
request is issued (Initialize starts initializing, Launch and Attach enter
Starting; stepping and continue leave the state to be changed by events). -/
def stateAfterRequest (cmd : DapCommand) (st : LifecycleState) : LifecycleState :=
  match cmd with
  | .initializeCmd => .Initializing
  | .launch => .Starting .Launch
  | .attach => .Starting .Attach
  | _ => st

/-- Modelled from the spec: teardown on entering Terminated: every
still-pending waiter is resolved with the Disconnected termination error and
the table is cleared. Returns the new session together with the list of
resolutions (seq, error) delivered to the waiters. -/
def Session.terminate (s : Session) : Session × List (Nat × DapError) :=
  (⟨s.next_seq, [], .Terminated, s.sent, s.stamped⟩,
    s.pending.map (fun q => (q, DapError.Disconnected)))

/-- Modelled from the spec: issuing one request against the session.
A request in a Terminated session fails immediately with the termination
class error; an illegal request is rejected synchronously with IllegalState
naming the attempted command and the current state, handing nothing to
Transport; a legal request is stamped with the next counter value (the
counter is advanced and never rolled back), registered as pending, and
written to Transport: sendOk says whether that write succeeds, and a failed
write is a fatal Transport error that tears the session down. -/
def Session.sendRequest (s : Session) (cmd : DapCommand) (sendOk : Bool) :
    Except DapError Nat × Session :=
  if s.state = .Terminated then
    (.error .Disconnected, s)
  else if legal cmd s.state = false then
    (.error (.IllegalState cmd s.state), s)
  else
    let seq := s.next_seq
    if sendOk then
      (.ok seq, ⟨seq + 1, seq :: s.pending, stateAfterRequest cmd s.state,
        s.sent ++ [(seq, cmd)], s.stamped ++ [seq]⟩)
    else
      (.error .Disconnected,
        (Session.terminate
          ⟨seq + 1, seq :: s.pending, s.state, s.sent, s.stamped ++ [seq]⟩).1)

/-- Modelled from the spec: the event kinds the state machine reacts to. -/
inductive DapEvent where
  | initialized
  | stopped
  | continued
  | terminated
  | exited
  | output
deriving DecidableEq

/-- Modelled from the spec: event handling: an Initialized capability event
moves Initializing to Initialized, Stopped and Continued toggle Running and
Stopped, and a Terminated or Exited event tears the session down; returns
the session and the resolutions delivered to pending waiters. -/
def Session.handleEvent (s : Session) (e : DapEvent) : Session × List (Nat × DapError) :=
  match e with
  | .terminated => s.terminate
  | .exited => s.terminate
  | .initialized =>
      if s.state = .Initializing then
        (⟨s.next_seq, s.pending, .Initialized, s.sent, s.stamped⟩, [])
      else (s, [])
  | .stopped =>
      if s.state = .Running ∨ s.state = .Starting .Launch ∨
          s.state = .Starting .Attach then
        (⟨s.next_seq, s.pending, .Stopped, s.sent, s.stamped⟩, [])
      else (s, [])
  | .continued =>
      if s.state = .Stopped then
        (⟨s.next_seq, s.pending, .Running, s.sent, s.stamped⟩, [])
      else (s, [])
  | .output => (s, [])

/-- Running a whole session history: fold sendRequest over a list of
(command, send success) operations. -/
def runAll (s : Session) : List (DapCommand × Bool) → Session
  | [] => s
  | (c, b) :: ops => runAll (s.sendRequest c b).2 ops

/-! ## Wire message format

The dap crate's transport module is not among the sources (only its module
declaration in crates/dap/src/lib.rs is), so the wire layer below is
modelled from the specification: each message travels as a length-prefixed
JSON document with a seq field, a type field in request, response, event,
and the type-specific fields command and arguments for a request,
request_seq, success and body or error for a response, and event and body
for an event. The JSON document is modelled as a structured JSON value; the
length prefix carries the byte length of its canonical serialization. -/

mutual
/-- A JSON value. -/
inductive Json where
  | null : Json
  | boolean (b : Bool) : Json
  | num (n : Int) : Json
  | str (s : String) : Json
  | arr (elems : JsonList) : Json
  | obj (fields : JsonObj) : Json
/-- A list of JSON values (the payload of a JSON array). -/
inductive JsonList where
  | nil : JsonList
  | cons (hd : Json) (tl : JsonList) : JsonList
/-- Key-value fields of a JSON object. -/
inductive JsonObj where
  | nil : JsonObj
  | cons (key : String) (val : Json) (tl : JsonObj) : JsonObj
end

/-- Escaping of one character inside a JSON string literal. -/
def escChar (c : Char) : List Char :=
  if c = '"' ∨ c = '\\' then ['\\', c] else [c]

/-- A JSON string literal: quotes around the escaped characters. -/
def quoteStr (s : String) : String :=
  "\"" ++ String.mk (s.data.flatMap escChar) ++ "\""

mutual
/-- Canonical serialization of a JSON value. -/
def serJson : Json → String
  | .null => "null"
  | .boolean true => "true"
  | .boolean false => "false"
  | .num n => toString n
  | .str s => quoteStr s
  | .arr es => "[" ++ serList es ++ "]"
  | .obj fs => "\x7b" ++ serObj fs ++ "\x7d"
/-- Serialization of the elements of a JSON array, comma separated. -/
def serList : JsonList → String
  | .nil => ""
  | .cons h .nil => serJson h
  | .cons h t => serJson h ++ "," ++ serList t
/-- Serialization of the fields of a JSON object, comma separated. -/
def serObj : JsonObj → String
  | .nil => ""
  | .cons k v .nil => quoteStr k ++ ":" ++ serJson v
  | .cons k v t => quoteStr k ++ ":" ++ serJson v ++ "," ++ serObj t
end

/-- Modelled from the spec: a wire Message is a tagged variant: a Request
with seq, command and optional arguments; a Response with request_seq, a
success flag and a body (on success) or error (on failure) payload; an
Event with its name and optional body. -/
inductive Message where
  | request (seq : Nat) (command : String) (arguments : Option Json)
  | response (request_seq : Nat) (success : Bool) (payload : Json)
  | event (name : String) (body : Option Json)

/-- An optional trailing field of a JSON object. -/
def optObj (key : String) : Option Json → JsonObj
  | none => .nil
  | some j => .cons key j .nil

/-- Encoding of a Message into its JSON document: type-specific fields per
the wire format (the response payload travels as body when success is true
and as error otherwise). -/
def jsonOfMessage : Message → Json
  | .request sq cmd args =>
      .obj (.cons "seq" (.num sq) (.cons "type" (.str "request")
        (.cons "command" (.str cmd) (optObj "arguments" args))))
  | .response rsq ok payload =>
      .obj (.cons "type" (.str "response") (.cons "request_seq" (.num rsq)
        (.cons "success" (.boolean ok)
          (.cons (if ok then "body" else "error") payload .nil))))
  | .event name body =>
      .obj (.cons "type" (.str "event") (.cons "event" (.str name)
        (optObj "body" body)))

/-- Lookup of a field in a JSON object, first match wins. -/
def JsonObj.lookup : JsonObj → String → Option Json
  | .nil, _ => none
  | .cons k v tl, key => if k = key then some v else tl.lookup key

/-- A JSON value read back as a non-negative integer. -/
def asNat : Json → Option Nat
  | .num n => if 0 ≤ n then some n.toNat else none
  | _ => none

/-- A JSON value read back as a string. -/
def asStr : Json → Option String
  | .str s => some s
  | _ => none

/-- A JSON value read back as a boolean. -/
def asBool : Json → Option Bool
  | .boolean b => some b
  | _ => none

/-- Decoding of a JSON document back into a Message: dispatch on the type
field and extract the type-specific fields; any missing or ill-typed field
makes the whole decode fail. -/
def messageOfJson : Json → Option Message
  | .obj fs =>
    match fs.lookup "type" with
    | some (.str t) =>
      if t = "request" then
        match (fs.lookup "seq").bind asNat, (fs.lookup "command").bind asStr with
        | some n, some c => some (.request n c (fs.lookup "arguments"))
        | _, _ => none
      else if t = "response" then
        match (fs.lookup "request_seq").bind asNat,
            (fs.lookup "success").bind asBool with
        | some n, some ok =>
          match fs.lookup (if ok then "body" else "error") with
          | some payload => some (.response n ok payload)
          | none => none
        | _, _ => none
      else if t = "event" then
        match (fs.lookup "event").bind asStr with
        | some name => some (.event name (fs.lookup "body"))
        | none => none
      else none
    | _ => none
  | _ => none

/-- One length-prefixed frame on the wire: the length header followed by
the JSON document of exactly that serialized length. -/
structure WireFrame where
  length : Nat
  document : Json

/-- Encoding a Message to its length-prefixed wire form. -/
def encodeWire (m : Message) : WireFrame :=
  ⟨(serJson (jsonOfMessage m)).length, jsonOfMessage m⟩

/-- Decoding a wire frame: the header must announce exactly the document's
serialized length, then the document is decoded. -/
def decodeWire (w : WireFrame) : Option Message :=
  if w.length = (serJson w.document).length then messageOfJson w.document
  else none

end ZedDap

namespace ZedDap

/-! ## Theorems about configuration resolution -/

/-- Auxiliary: since every conversion returns Ok, the filterMap over
log_err acts as a plain map. -/
theorem filterMap_log_err_eq_map (l : List DebugTaskDefinition) :
    l.filterMap (fun d => log_err d.to_zed_format) =
      l.map (fun d =>
        (⟨d.label, "", [], .Debug ⟨d.adapter, d.session_type, d.program,
          none, d.initialize_args⟩⟩ : TaskTemplate)) := by
  induction l with
  | nil => rfl
  | cons x xs ih =>
    rw [List.filterMap_cons, List.map_cons, ih]
    rfl

/-- Auxiliary: every definition passes the validity filter. -/
theorem filter_valid_eq_self (l : List DebugTaskDefinition) :
    l.filter (fun d => d.to_zed_format.isOk) = l :=
  List.filter_eq_self.mpr (fun _ _ => rfl)

/-- C1: resolving a batch never fails; the produced templates are exactly
those of the definitions whose individual conversion succeeds (the invalid
ones are filtered out without affecting the rest), one template per valid
definition. -/
theorem batch_resolution_filters_invalid (defs : List DebugTaskDefinition) :
    ∃ ts : TaskTemplates,
      TaskTemplates.tryFrom ⟨defs⟩ = Except.ok ts ∧
      ts.templates =
        (defs.filter (fun d => d.to_zed_format.isOk)).filterMap
          (fun d => log_err d.to_zed_format) ∧
      ts.templates.length =
        (defs.filter (fun d => d.to_zed_format.isOk)).length := by
  refine ⟨_, rfl, ?_, ?_⟩
  · rw [filter_valid_eq_self]
  · show (defs.filterMap (fun d => log_err d.to_zed_format)).length = _
    rw [filter_valid_eq_self, filterMap_log_err_eq_map, List.length_map]

/-- C2: the per-definition conversion to_zed_format always returns Ok, and
converting a whole DebugTaskFile yields exactly one template per definition:
nothing is ever dropped by the filtering step. -/
theorem to_zed_format_never_fails (d : DebugTaskDefinition)
    (defs : List DebugTaskDefinition) :
    d.to_zed_format.isOk = true ∧
    ∃ ts : TaskTemplates,
      TaskTemplates.tryFrom ⟨defs⟩ = Except.ok ts ∧
      ts.templates.length = defs.length := by
  refine ⟨rfl, _, rfl, ?_⟩
  show (defs.filterMap (fun d => log_err d.to_zed_format)).length = _
  rw [filterMap_log_err_eq_map, List.length_map]

/-- C7: a definition whose adapter kind is Custom resolves to a config whose
kind is the very same Custom value: the embedded connection spec and start
command pass through unchanged. -/
theorem custom_kind_passes_through (d : DebugTaskDefinition) (ca : CustomArgs)
    (h : d.adapter = .Custom ca) :
    ∃ t : TaskTemplate,
      d.to_zed_format = Except.ok t ∧
      t.task_type = .Debug ⟨.Custom ca, d.session_type, d.program, none,
        d.initialize_args⟩ := by
  refine ⟨_, rfl, ?_⟩
  show TaskType.Debug ⟨d.adapter, _, _, _, _⟩ = _
  rw [h]

/-- Closed instance of custom_kind_passes_through at a concrete definition. -/
theorem custom_kind_passes_through_witness :
    (⟨"t", "p", .Launch, .Custom ⟨.Stdio, "dbg"⟩, none⟩ :
        DebugTaskDefinition).adapter = .Custom ⟨.Stdio, "dbg"⟩ ∧
    ∃ t : TaskTemplate,
      (⟨"t", "p", .Launch, .Custom ⟨.Stdio, "dbg"⟩, none⟩ :
        DebugTaskDefinition).to_zed_format = Except.ok t ∧
      t.task_type = .Debug ⟨.Custom ⟨.Stdio, "dbg"⟩, .Launch, "p", none, none⟩ :=
  ⟨rfl, custom_kind_passes_through _ ⟨.Stdio, "dbg"⟩ rfl⟩

/-- C8: deserializing a definition resolves an absent session_type to the
default Launch (and to the written value otherwise), and the resolved
config's request field is exactly that value. -/
theorem session_type_defaults_to_launch (r : RawDebugTaskDefinition) :
    DebugRequestType.default = .Launch ∧
    (deserializeDefinition r).session_type =
      r.session_type.getD .Launch ∧
    ∃ t : TaskTemplate,
      (deserializeDefinition r).to_zed_format = Except.ok t ∧
      t.task_type = .Debug ⟨r.adapter, r.session_type.getD .Launch,
        r.program, none, r.initialize_args⟩ :=
  ⟨rfl, rfl, _, rfl, rfl⟩

/-- C9: the default DebugAdapterKind is Custom with an STDIO connection and
an empty start command, while the default DebugConnectionType on its own is
TCP with all of host, port and delay absent; the two defaults disagree on
the connection variant. -/
theorem adapter_and_connection_defaults_disagree :
    DebugAdapterKind.default = .Custom ⟨.Stdio, ""⟩ ∧
    DebugConnectionType.default = .TCP ⟨none, none, none⟩ ∧
    DebugConnectionType.Stdio ≠ DebugConnectionType.default := by
  refine ⟨rfl, rfl, ?_⟩
  decide

/-- C10: for every definition, to_zed_format yields a template with empty
command, empty args and adapter_path None, carrying over exactly label,
program, session type, adapter kind and initialize_args. -/
theorem to_zed_format_shape (d : DebugTaskDefinition) :
    d.to_zed_format =
      Except.ok ⟨d.label, "", [], .Debug ⟨d.adapter, d.session_type,
        d.program, none, d.initialize_args⟩⟩ := rfl

/-! ## Theorems about the session engine -/

/-- Auxiliary: one request step preserves the stamping invariant: every
stamped seq is below the counter and the stamped log is strictly
increasing. -/
theorem stamped_step (s : Session) (c : DapCommand) (b : Bool)
    (h1 : ∀ q ∈ s.stamped, q < s.next_seq)
    (h2 : s.stamped.Pairwise (· < ·)) :
    (∀ q ∈ ((s.sendRequest c b).2).stamped,
        q < ((s.sendRequest c b).2).next_seq) ∧
    ((s.sendRequest c b).2).stamped.Pairwise (· < ·) := by
  unfold Session.sendRequest
  split
  · exact ⟨h1, h2⟩
  split
  · exact ⟨h1, h2⟩
  have hmem : ∀ q ∈ s.stamped ++ [s.next_seq], q < s.next_seq + 1 := by
    intro q hq
    rcases List.mem_append.mp hq with h | h
    · exact Nat.lt_succ_of_lt (h1 q h)
    · rcases List.mem_singleton.mp h with rfl
      exact Nat.lt_succ_self _
  have hpair : (s.stamped ++ [s.next_seq]).Pairwise (· < ·) := by
    refine List.pairwise_append.mpr ⟨h2, List.pairwise_singleton _ _, ?_⟩
    intro a ha q hq
    rcases List.mem_singleton.mp hq with rfl
    exact h1 a ha
  split
  · exact ⟨hmem, hpair⟩
  · exact ⟨hmem, hpair⟩

/-- Auxiliary: the stamping invariant holds after running any history. -/
theorem runAll_inv (ops : List (DapCommand × Bool)) (s : Session)
    (h1 : ∀ q ∈ s.stamped, q < s.next_seq)
    (h2 : s.stamped.Pairwise (· < ·)) :
    (∀ q ∈ (runAll s ops).stamped, q < (runAll s ops).next_seq) ∧
    (runAll s ops).stamped.Pairwise (· < ·) := by
  induction ops generalizing s with
  | nil => exact ⟨h1, h2⟩
  | cons op ops ih =>
    obtain ⟨c, b⟩ := op
    exact ih _ (stamped_step s c b h1 h2).1 (stamped_step s c b h1 h2).2

/-- C3: over any session history, the sequence numbers stamped on outgoing
requests are strictly increasing and never reused, and the counter advances
identically whether the Transport write succeeds or fails (no rollback on
send failure). -/
theorem seqs_strictly_increasing_and_unique (ops : List (DapCommand × Bool))
    (s : Session) (c : DapCommand) :
    (runAll Session.init ops).stamped.Pairwise (· < ·) ∧
    (runAll Session.init ops).stamped.Nodup ∧
    ((s.sendRequest c false).2).next_seq = ((s.sendRequest c true).2).next_seq := by
  have h := runAll_inv ops Session.init (by intro q hq; cases hq) (by constructor)
  refine ⟨h.2, h.2.imp (fun hlt => Nat.ne_of_lt hlt), ?_⟩
  unfold Session.sendRequest
  split
  · rfl
  split
  · rfl
  rfl

/-- C4: teardown on entering Terminated (reached from a Terminated or
Exited event, or from a fatal Transport error) clears the pending table,
resolves every formerly pending waiter with the Disconnected termination
error, and any request issued against the terminated session fails
immediately with the same class of error, leaving the session (and hence
the wire log) untouched. -/
theorem termination_flushes_pending_and_fails_fast (s : Session)
    (c : DapCommand) (b : Bool) :
    s.terminate.1.pending = [] ∧
    s.terminate.1.state = .Terminated ∧
    s.terminate.2 = s.pending.map (fun q => (q, DapError.Disconnected)) ∧
    s.handleEvent .terminated = s.terminate ∧
    s.handleEvent .exited = s.terminate ∧
    (s.terminate.1).sendRequest c b =
      (.error .Disconnected, s.terminate.1) := by
  refine ⟨rfl, rfl, rfl, rfl, rfl, ?_⟩
  unfold Session.sendRequest
  rw [if_pos (show s.terminate.1.state = .Terminated from rfl)]

/-- C5: a request that is not legal in the current state of a live session
is rejected synchronously with IllegalState naming the attempted command
and the current state, and the session — including its Transport log — is
left unchanged: nothing reaches the wire. -/
theorem illegal_request_rejected (s : Session) (c : DapCommand) (b : Bool)
    (hterm : s.state ≠ .Terminated) (hleg : legal c s.state = false) :
    s.sendRequest c b = (.error (.IllegalState c s.state), s) := by
  unfold Session.sendRequest
  rw [if_neg hterm, if_pos hleg]

/-- Closed instance of illegal_request_rejected: Launch in Uninitialized
fails locally with IllegalState(Launch, Uninitialized) and produces no wire
traffic. -/
theorem illegal_request_rejected_witness :
    Session.init.state ≠ .Terminated ∧
    legal .launch Session.init.state = false ∧
    Session.init.sendRequest .launch true =
      (.error (.IllegalState .launch .Uninitialized), Session.init) :=
  ⟨by decide, by decide,
    illegal_request_rejected Session.init .launch true (by decide) (by decide)⟩

/-! ## Theorems about the wire format -/

/-- Auxiliary: a frame whose header matches its document decodes the
document. -/
theorem decodeWire_of_matching_length (j : Json) :
    decodeWire ⟨(serJson j).length, j⟩ = messageOfJson j := by
  unfold decodeWire
  rw [if_pos rfl]

/-- C6: encoding any wire Message of the three kinds to its length-prefixed
JSON wire form and decoding it back reproduces every field of the original
message, including the seq of a Request and the request_seq of a
Response. -/
theorem wire_roundtrip (m : Message) : decodeWire (encodeWire m) = some m := by
  rw [encodeWire, decodeWire_of_matching_length]
  cases m with
  | request sq cmd args =>
    cases args with
    | none =>
      simp [messageOfJson, jsonOfMessage, JsonObj.lookup, optObj, asNat,
        asStr, Int.toNat_natCast]
    | some a =>
      simp [messageOfJson, jsonOfMessage, JsonObj.lookup, optObj, asNat,
        asStr, Int.toNat_natCast]
  | response rsq ok payload =>
    cases ok with
    | false =>
      simp [messageOfJson, jsonOfMessage, JsonObj.lookup, asNat, asBool,
        Int.toNat_natCast]
    | true =>
      simp [messageOfJson, jsonOfMessage, JsonObj.lookup, asNat, asBool,
        Int.toNat_natCast]
  | event name body =>
    cases body with
    | none => simp [messageOfJson, jsonOfMessage, JsonObj.lookup, optObj, asStr]
    | some b => simp [messageOfJson, jsonOfMessage, JsonObj.lookup, optObj, asStr]

end ZedDap
